import Mathlib

/-!
Shallow embedding of the llm-d-activator request-control core
(`pkg/activator/requestcontrol/{activator,director}.go`) and proofs of the
frozen claims about it.

External effects (the Kubernetes datastore, scale client, dynamic client)
are modelled as oracles carried in an environment record: each theorem
quantifies over every possible sequence of responses the cluster could give.
Go panics (nil-pointer dereferences, failed single-value type assertions)
are modelled as explicit `panicked` outcomes.  The unbounded `for` loops of
the source are modelled with explicit fuel: a `none` result means the loop
had not returned within the given number of iterations.
-/

/-- Annotation key constant from activator.go line 30. -/
def ObjectApiVersionKey : String := "activator.llm-d.ai/target-apiversion"

/-- Annotation key constant from activator.go line 31. -/
def ObjectkindKey : String := "activator.llm-d.ai/target-kind"

/-- Annotation key constant from activator.go line 32. -/
def ObjectNameKey : String := "activator.llm-d.ai/target-name"

/-- Annotation key constant from activator.go line 33 (optional). -/
def ScaleFromZeroGracePeriodKey : String := "activator.llm-d.ai/scale-from-zero-grace-period"

/-- Annotation key constant from activator.go line 34 (optional). -/
def ScaleDownDelayKey : String := "activator.llm-d.ai/scale-down-delay"

/-- The part of v1.InferencePool the activator reads: object meta name,
namespace and the annotation map (modelled as an association list). -/
structure InferencePool where
  name : String
  ns : String
  annots : List (String × String)
deriving DecidableEq

/-- Go map read with comma-ok: `value, ok := pool.Annotations[key]`. -/
def lookupAnn : List (String × String) → String → Option String
  | [], _ => none
  | (k, v) :: rest, key => if k = key then some v else lookupAnn rest key

/-- Go map read without comma-ok: `pool.Annotations[key]` yields the zero
value (the empty string) when the key is absent. -/
def goMapGet (pool : InferencePool) (key : String) : String :=
  (lookupAnn pool.annots key).getD ""

/-- activator.verifyPoolObjectAnnotations (activator.go 230-244): three
sequential comma-ok presence checks; any absent key returns false. -/
def verifyPoolObjectAnnotations (pool : InferencePool) : Bool :=
  if (lookupAnn pool.annots ObjectApiVersionKey).isNone then false
  else if (lookupAnn pool.annots ObjectkindKey).isNone then false
  else if (lookupAnn pool.annots ObjectNameKey).isNone then false
  else true

/-- activator.getOptionalPoolAnnotation (activator.go 246-252): the
annotation value and whether the key was present. -/
def getOptionalPoolAnn (annotationKey : String) (pool : InferencePool) : String × Bool :=
  match lookupAnn pool.annots annotationKey with
  | some value => (value, true)
  | none => ("", false)

/-- Decimal value of a digit run; none when a non-digit appears. -/
def digitsValAux : List Char → Nat → Option Nat
  | [], acc => some acc
  | c :: cs, acc =>
    if c.isDigit then digitsValAux cs (acc * 10 + (c.toNat - 48)) else none

/-- Decimal value of a nonempty digit run. -/
def digitsVal (cs : List Char) : Option Nat :=
  match cs with
  | [] => none
  | _ => digitsValAux cs 0

/-- Largest value of Go int on a 64-bit platform. -/
def int64Max : Int := 9223372036854775807

/-- Smallest value of Go int on a 64-bit platform. -/
def int64Min : Int := -9223372036854775808

/-- Go strconv.Atoi with the error discarded, as in
`scaleGracePeriod, _ = strconv.Atoi(value)` (activator.go 113): an optional
sign followed by digits parses to its (range-clamped) value, anything else
leaves the zero value 0. -/
def goAtoi (s : String) : Int :=
  let core : Option Int :=
    match s.data with
    | '+' :: rest => (digitsVal rest).map (fun n => (n : Int))
    | '-' :: rest => (digitsVal rest).map (fun n => -(n : Int))
    | cs => (digitsVal cs).map (fun n => (n : Int))
  match core with
  | some v => if v > int64Max then int64Max else if v < int64Min then int64Min else v
  | none => 0

/-- The duration fields of the activator struct (activator.go 44-61), held
as Go time.Duration values, i.e. integer nanoseconds. -/
structure ActivatorConfig where
  defaultScaleToZeroGracePeriodNanos : Int
  defaultScaleFromZeroGracePeriodNanos : Int
  defaultScaleDownDelayNanos : Int
  scaleToZeroRequestRetentionPeriodNanos : Int
deriving DecidableEq

/-- The defaults set by newActivator (activator.go 85-88): 60s, 60s, 20s and
5s, as nanosecond counts. -/
def newActivatorConfig : ActivatorConfig :=
  { defaultScaleToZeroGracePeriodNanos := 60000000000
    defaultScaleFromZeroGracePeriodNanos := 60000000000
    defaultScaleDownDelayNanos := 20000000000
    scaleToZeroRequestRetentionPeriodNanos := 5000000000 }

/-- The scaleGracePeriod computation of InferencePoolReady (activator.go
110-116), transcribed literally: when the optional annotation is NOT found
the code runs Atoi on the (empty) value, and when it IS found the code uses
`int(a.DefaultScaleFromZeroGracePeriod)`, the default converted from
nanoseconds. -/
def scaleFromZeroGracePeriodInt (pool : InferencePool) (defaultFromZeroNanos : Int) : Int :=
  let vf := getOptionalPoolAnn ScaleFromZeroGracePeriodKey pool
  if vf.2 = false then goAtoi vf.1 else defaultFromZeroNanos

/-- One observation of the target workload object per poll tick of
InferencePoolPodsReady (activator.go 156-161): the dynamic Get fails (the
returned object pointer is nil), the status field is absent or not a map
(the single-value type assertion fails), the readyReplicas field is absent
from the status map, or readyReplicas is present with an int64 value. -/
inductive TickObs where
  | getError
  | statusNotMap
  | fieldAbsent
  | present (r : Int)
deriving DecidableEq

/-- Go int32 truncation of an int64 value, as in `int32(readyReplicas)`. -/
def toInt32 (r : Int) : Int :=
  (r + 2147483648) % 4294967296 - 2147483648

/-- Outcome of one iteration of the poll loop body. -/
inductive StepResult where
  | panicked
  | retTrue
  | retFalse
  | again (count : Nat)
deriving DecidableEq

/-- One iteration of the loop body of activator.InferencePoolPodsReady
(activator.go 152-180).  A failed Get leaves a nil object whose field read
panics; a status that is absent or not a map makes the single-value type
assertion panic; an absent readyReplicas field re-polls without touching
the counter; a present value returns true on equality with numReplicas
(after int32 truncation) and otherwise advances the counter, giving up once
it exceeds scaleGracePeriod. -/
def podsReadyStep (numReplicas scaleGracePeriod : Int) (count : Nat) : TickObs → StepResult
  | TickObs.getError => StepResult.panicked
  | TickObs.statusNotMap => StepResult.panicked
  | TickObs.fieldAbsent => StepResult.again count
  | TickObs.present r =>
    if numReplicas = toInt32 r then StepResult.retTrue
    else if ((count : Int) + 1) > scaleGracePeriod then StepResult.retFalse
    else StepResult.again (count + 1)

/-- Outcome of a whole loop: returned true, returned false, or panicked. -/
inductive LoopResult where
  | panicked
  | retTrue
  | retFalse
deriving DecidableEq

/-- The unbounded for loop of activator.InferencePoolPodsReady, run on the
observation trace obs with explicit fuel; i is the tick index and count the
grace counter (started at 0 by the caller).  none means the loop had not
returned within fuel iterations. -/
def podsReadyRun (numReplicas scaleGracePeriod : Int) (obs : Nat → TickObs) :
    Nat → Nat → Nat → Option LoopResult
  | 0, _, _ => none
  | Nat.succ fuel, i, count =>
    match podsReadyStep numReplicas scaleGracePeriod count (obs i) with
    | StepResult.panicked => some LoopResult.panicked
    | StepResult.retTrue => some LoopResult.retTrue
    | StepResult.retFalse => some LoopResult.retFalse
    | StepResult.again c => podsReadyRun numReplicas scaleGracePeriod obs fuel (i + 1) c

/-- The scale subresource view the activator uses: Spec.Replicas (int32). -/
structure ScaleObj where
  specReplicas : Int
deriving DecidableEq

/-- api/v1 GroupVersionResource (gvr_types.go 24-28). -/
structure GroupVersionResource where
  group : String
  version : String
  resource : String
deriving DecidableEq

/-- schema.GroupResource, as produced by GroupVersionResource.GroupResource
(gvr_types.go 41-43). -/
structure GroupResource where
  group : String
  resource : String
deriving DecidableEq

/-- GroupVersionResource.GroupResource (gvr_types.go 41-43). -/
def GroupVersionResource.groupResource (gvr : GroupVersionResource) : GroupResource :=
  { group := gvr.group, resource := gvr.resource }

/-- activator.ScaleInferencePool (activator.go 182-200).  The first argument
is the scale object the caller obtained: when the caller passed the nil
result of a failed read, the very first statement
`objData.scaleObject.Spec.Replicas = objData.numReplicas` dereferences nil
and panics.  Otherwise Update is issued (the written desiredReplicas values
are returned alongside the outcome); a failed update returns false, a
successful update returns true at once when numReplicas is zero (after a
sleep) and otherwise waits on the readiness poll. -/
def scaleInferencePool (scaleObject : Option ScaleObj) (updateOk : Bool)
    (numReplicas scaleGracePeriodInt : Int) (obs : Nat → TickObs) (fuel : Nat) :
    Option LoopResult × List Int :=
  match scaleObject with
  | none => (some LoopResult.panicked, [])
  | some _ =>
    if updateOk = false then (some LoopResult.retFalse, [numReplicas])
    else if numReplicas = 0 then (some LoopResult.retTrue, [numReplicas])
    else (podsReadyRun numReplicas scaleGracePeriodInt obs fuel 0 0, [numReplicas])

/-- Responses of the external collaborators for one InferencePoolReady
invocation: the datastore pool read, the GVR resolution of the two target
annotations, the scale subresource read keyed by (group-resource, name),
the outcome of the scale-subresource update, and the workload-object
observation traces of the two readiness-poll call sites (the pre-check
poll when desired replicas are already positive, and the post-scale-up
poll). -/
structure Env where
  poolGet : Except String InferencePool
  parseGVR : Except String GroupVersionResource
  getScale : GroupResource → String → Except String ScaleObj
  updateScaleOk : Bool
  podsObsA : Nat → TickObs
  podsObsB : Nat → TickObs

/-- Overall outcome of one InferencePoolReady invocation. -/
inductive RunResult where
  | rtrue
  | rfalse
  | panicked
deriving DecidableEq

/-- Result of one InferencePoolReady invocation together with the observable
cluster interactions: the workload names passed to the scale-subresource
Get, and the desiredReplicas values written through UpdateScale. -/
structure RunOut where
  result : Option RunResult
  scaleGets : List String
  updates : List Int
deriving DecidableEq

/-- activator.InferencePoolReady (activator.go 91-150).  Pool read failure
and failed annotation validation return false.  The optional grace-period
annotation is folded exactly as the source does (see
scaleFromZeroGracePeriodInt).  A GVR resolution error is only logged: the
code continues with the zero-valued GroupVersionResource.  A failed scale
read returns true (fail-open) without any mutation.  With desired replicas
positive, a successful pre-check poll returns true with no mutation;
otherwise the pool is scaled up to one replica (the post-scale-up poll uses
the default grace period converted from nanoseconds, as the source passes
`int(objData.scaleGracePeriod)` of `a.DefaultScaleFromZeroGracePeriod`). -/
def inferencePoolReady (cfg : ActivatorConfig) (env : Env) (fuel : Nat) : RunOut :=
  match env.poolGet with
  | Except.error _ => { result := some RunResult.rfalse, scaleGets := [], updates := [] }
  | Except.ok pool =>
    if verifyPoolObjectAnnotations pool = false then
      { result := some RunResult.rfalse, scaleGets := [], updates := [] }
    else
      let scaleGracePeriod := scaleFromZeroGracePeriodInt pool cfg.defaultScaleFromZeroGracePeriodNanos
      let gvr : GroupVersionResource :=
        match env.parseGVR with
        | Except.ok g => g
        | Except.error _ => { group := "", version := "", resource := "" }
      let gr := gvr.groupResource
      let objName := goMapGet pool ObjectNameKey
      match env.getScale gr objName with
      | Except.error _ => { result := some RunResult.rtrue, scaleGets := [objName], updates := [] }
      | Except.ok scaleObject =>
        let scaleUp : RunOut :=
          match scaleInferencePool (some scaleObject) env.updateScaleOk 1
              cfg.defaultScaleFromZeroGracePeriodNanos env.podsObsB fuel with
          | (some LoopResult.retTrue, us) =>
            { result := some RunResult.rtrue, scaleGets := [objName], updates := us }
          | (some LoopResult.retFalse, us) =>
            { result := some RunResult.rfalse, scaleGets := [objName], updates := us }
          | (some LoopResult.panicked, us) =>
            { result := some RunResult.panicked, scaleGets := [objName], updates := us }
          | (none, us) => { result := none, scaleGets := [objName], updates := us }
        if scaleObject.specReplicas > 0 then
          match podsReadyRun scaleObject.specReplicas scaleGracePeriod env.podsObsA fuel 0 0 with
          | some LoopResult.retTrue =>
            { result := some RunResult.rtrue, scaleGets := [objName], updates := [] }
          | some LoopResult.panicked =>
            { result := some RunResult.panicked, scaleGets := [objName], updates := [] }
          | some LoopResult.retFalse => scaleUp
          | none => { result := none, scaleGets := [objName], updates := [] }
        else scaleUp

/-- Fixed tick period of the idleness watcher, from
`time.NewTicker(time.Second * 30)` (activator.go 266), in seconds. -/
def watcherTickSeconds : Nat := 30

/-- Responses of the external collaborators per watcher tick: the idle time
`time.Since(ds.PoolGetRequestTime())` in nanoseconds, the scale read and
the update outcome at that tick. -/
structure WatcherEnv where
  sinceLastRequest : Nat → Int
  getScale : Nat → Except String ScaleObj
  updateOk : Nat → Bool

/-- Terminal outcome of the idleness watcher. -/
inductive WatcherResult where
  | terminated
  | panicked
deriving DecidableEq

/-- Watcher outcome plus the desiredReplicas values it wrote; a none result
means the watcher was still ticking when the fuel ran out. -/
structure WatcherOut where
  result : Option WatcherResult
  updates : List Int
deriving DecidableEq

/-- activator.MonitorInferencePoolIdleness (activator.go 254-293), run on
tick index i with explicit fuel and the accumulated updates acc.  On an
idle tick (time since the last request exceeds DefaultScaleDownDelay) the
scale object is read; a read error is only logged and the nil result is
passed to ScaleInferencePool, which panics.  Otherwise ScaleInferencePool
with numReplicas 0 issues the update: on success the watcher returns, on
failure it keeps ticking.  (The observation trace handed to
ScaleInferencePool is irrelevant: with numReplicas 0 its readiness poll is
unreachable.) -/
def monitorInferencePoolIdleness (cfg : ActivatorConfig) (env : WatcherEnv) :
    Nat → Nat → List Int → WatcherOut
  | 0, _, acc => { result := none, updates := acc }
  | Nat.succ fuel, i, acc =>
    if env.sinceLastRequest i > cfg.defaultScaleDownDelayNanos then
      let scaleObject : Option ScaleObj :=
        match env.getScale i with
        | Except.ok s => some s
        | Except.error _ => none
      match scaleInferencePool scaleObject (env.updateOk i) 0
          cfg.defaultScaleToZeroGracePeriodNanos (fun _ => TickObs.fieldAbsent) 0 with
      | (some LoopResult.retTrue, us) =>
        { result := some WatcherResult.terminated, updates := acc ++ us }
      | (some LoopResult.panicked, us) =>
        { result := some WatcherResult.panicked, updates := acc ++ us }
      | (some LoopResult.retFalse, us) =>
        monitorInferencePoolIdleness cfg env fuel (i + 1) (acc ++ us)
      | (none, us) => { result := none, updates := acc ++ us }
    else monitorInferencePoolIdleness cfg env fuel (i + 1) acc

/-- Values of the parsed JSON request body map: a string, or anything else. -/
inductive BodyVal where
  | vstr (s : String)
  | vother
deriving DecidableEq

/-- The part of handlers.RequestContext the Director reads and writes. -/
structure RequestContext where
  body : List (String × BodyVal)
  incomingModelName : String
  targetModelName : String
deriving DecidableEq

/-- Go map read with comma-ok on the request body. -/
def lookupBody : List (String × BodyVal) → String → Option BodyVal
  | [], _ => none
  | (k, v) :: rest, key => if k = key then some v else lookupBody rest key

/-- Go map assignment on the request body: replace the binding when the key
is present, append it otherwise. -/
def setBody : List (String × BodyVal) → String → BodyVal → List (String × BodyVal)
  | [], key, v => [(key, v)]
  | (k, v0) :: rest, key, v =>
    if k = key then (k, v) :: rest else (k, v0) :: setBody rest key v

/-- Verdict of Director.HandleRequest. -/
inductive HandleOutcome where
  | ok
  | badRequest
  | serviceUnavailable
  | panicked
deriving DecidableEq

/-- Director.HandleRequest (director.go 62-89).  The model field is read
with a comma-ok string assertion (absent or non-string yields BadRequest,
with IncomingModelName left at the zero value the failed assertion wrote).
TargetModelName defaults to the incoming name when empty, the body's model
key is overwritten with the target name, and only then is the readiness
gate consulted; an unready pool yields ServiceUnavailable with the already
mutated context. -/
def handleRequest (cfg : ActivatorConfig) (env : Env) (reqCtx : RequestContext)
    (fuel : Nat) : Option (RequestContext × HandleOutcome) :=
  match lookupBody reqCtx.body "model" with
  | some (BodyVal.vstr m) =>
    let rc1 := { reqCtx with incomingModelName := m }
    let rc2 :=
      if rc1.targetModelName = "" then { rc1 with targetModelName := rc1.incomingModelName }
      else rc1
    let rc3 := { rc2 with body := setBody rc2.body "model" (BodyVal.vstr rc2.targetModelName) }
    match (inferencePoolReady cfg env fuel).result with
    | none => none
    | some RunResult.panicked => some (rc3, HandleOutcome.panicked)
    | some RunResult.rfalse => some (rc3, HandleOutcome.serviceUnavailable)
    | some RunResult.rtrue => some (rc3, HandleOutcome.ok)
  | _ => some ({ reqCtx with incomingModelName := "" }, HandleOutcome.badRequest)

/-- Go int32 truncation is the identity on values already in int32 range. -/
theorem toInt32_eq_self (r : Int) (h1 : -2147483648 ≤ r) (h2 : r < 2147483648) :
    toInt32 r = r := by
  unfold toInt32
  have h3 : 0 ≤ r + 2147483648 := by omega
  have h4 : r + 2147483648 < 4294967296 := by omega
  rw [Int.emod_eq_of_lt h3 h4]
  omega

/-- Reading back the key just written into the body map yields the written
value. -/
theorem lookupBody_setBody (b : List (String × BodyVal)) (k : String) (v : BodyVal) :
    lookupBody (setBody b k v) k = some v := by
  induction b with
  | nil => simp [setBody, lookupBody]
  | cons hd tl ih =>
    obtain ⟨k0, v0⟩ := hd
    by_cases hk : k0 = k
    · simp [setBody, lookupBody, hk]
    · simp [setBody, lookupBody, hk, ih]

/-- Validation fails whenever a required annotation key is absent. -/
theorem verify_eq_false_of_missing (pool : InferencePool)
    (h : lookupAnn pool.annots ObjectApiVersionKey = none
      ∨ lookupAnn pool.annots ObjectkindKey = none
      ∨ lookupAnn pool.annots ObjectNameKey = none) :
    verifyPoolObjectAnnotations pool = false := by
  rcases h with h | h | h <;> simp [verifyPoolObjectAnnotations, h]

/-- Validation succeeds whenever all three required annotation keys are
present, whatever their values. -/
theorem verify_eq_true_of_present (pool : InferencePool)
    (h1 : (lookupAnn pool.annots ObjectApiVersionKey).isSome = true)
    (h2 : (lookupAnn pool.annots ObjectkindKey).isSome = true)
    (h3 : (lookupAnn pool.annots ObjectNameKey).isSome = true) :
    verifyPoolObjectAnnotations pool = true := by
  obtain ⟨a1, e1⟩ := Option.isSome_iff_exists.mp h1
  obtain ⟨a2, e2⟩ := Option.isSome_iff_exists.mp h2
  obtain ⟨a3, e3⟩ := Option.isSome_iff_exists.mp h3
  simp [verifyPoolObjectAnnotations, e1, e2, e3]

/-- C1: in an invocation whose pool is registered and passes the required
annotation validation, a failed scale-subresource read makes
InferencePoolReady return true (fail-open), with no UpdateScale issued in
that invocation. -/
theorem c1_scale_read_error_fails_open (cfg : ActivatorConfig) (env : Env)
    (fuel : Nat) (pool : InferencePool)
    (hpool : env.poolGet = Except.ok pool)
    (hverify : verifyPoolObjectAnnotations pool = true)
    (hscale : ∀ g : GroupResource, ∃ e,
      env.getScale g (goMapGet pool ObjectNameKey) = Except.error e) :
    inferencePoolReady cfg env fuel =
      { result := some RunResult.rtrue
        scaleGets := [goMapGet pool ObjectNameKey]
        updates := [] } := by
  unfold inferencePoolReady
  rw [hpool]
  simp only [hverify]
  cases hg : env.parseGVR with
  | ok g =>
    obtain ⟨e, he⟩ := hscale g.groupResource
    simp [he]
  | error msg =>
    obtain ⟨e, he⟩ :=
      hscale (GroupVersionResource.groupResource { group := "", version := "", resource := "" })
    simp [he]

/-- Concrete pool carrying all three required annotations. -/
def c1pool : InferencePool :=
  { name := "p"
    ns := "d"
    annots := [(ObjectApiVersionKey, "apps/v1"), (ObjectkindKey, "Deployment"),
               (ObjectNameKey, "wl")] }

/-- Environment whose scale-subresource read always fails. -/
def c1env : Env :=
  { poolGet := Except.ok c1pool
    parseGVR := Except.ok { group := "apps", version := "v1", resource := "deployments" }
    getScale := fun _ _ => Except.error "connection refused"
    updateScaleOk := true
    podsObsA := fun _ => TickObs.fieldAbsent
    podsObsB := fun _ => TickObs.fieldAbsent }

/-- Witness for C1 at a concrete pool and environment. -/
theorem c1_witness :
    inferencePoolReady newActivatorConfig c1env 1 =
      { result := some RunResult.rtrue
        scaleGets := [goMapGet c1pool ObjectNameKey]
        updates := [] } :=
  c1_scale_read_error_fails_open newActivatorConfig c1env 1 c1pool rfl (by decide)
    (fun _ => ⟨"connection refused", rfl⟩)

/-- C4: a registered pool missing any required annotation makes
InferencePoolReady return false with no scale read and no UpdateScale. -/
theorem c4_missing_annotation_fails_closed (cfg : ActivatorConfig) (env : Env)
    (fuel : Nat) (pool : InferencePool)
    (hpool : env.poolGet = Except.ok pool)
    (hmiss : lookupAnn pool.annots ObjectApiVersionKey = none
      ∨ lookupAnn pool.annots ObjectkindKey = none
      ∨ lookupAnn pool.annots ObjectNameKey = none) :
    inferencePoolReady cfg env fuel =
      { result := some RunResult.rfalse, scaleGets := [], updates := [] } := by
  have hv := verify_eq_false_of_missing pool hmiss
  unfold inferencePoolReady
  rw [hpool]
  simp [hv]

/-- Concrete pool missing the required target-name annotation. -/
def c4pool : InferencePool :=
  { name := "p"
    ns := "d"
    annots := [(ObjectApiVersionKey, "apps/v1"), (ObjectkindKey, "Deployment")] }

/-- Environment registering the misconfigured pool. -/
def c4env : Env :=
  { poolGet := Except.ok c4pool
    parseGVR := Except.ok { group := "apps", version := "v1", resource := "deployments" }
    getScale := fun _ _ => Except.ok { specReplicas := 1 }
    updateScaleOk := true
    podsObsA := fun _ => TickObs.present 1
    podsObsB := fun _ => TickObs.present 1 }

/-- Witness for C4 at a concrete misconfigured pool. -/
theorem c4_witness :
    inferencePoolReady newActivatorConfig c4env 3 =
      { result := some RunResult.rfalse, scaleGets := [], updates := [] } :=
  c4_missing_annotation_fails_closed newActivatorConfig c4env 3 c4pool rfl
    (Or.inr (Or.inr (by decide)))

/-- Concrete pool whose target kind the cluster does not serve. -/
def c2pool : InferencePool :=
  { name := "p"
    ns := "d"
    annots := [(ObjectApiVersionKey, "serving.example/v1"), (ObjectkindKey, "UnknownKind"),
               (ObjectNameKey, "my-workload")] }

/-- Environment in which GVR resolution fails and the subsequent scale read
(made with the zero-valued GroupVersionResource the code keeps using) fails
too. -/
def c2env : Env :=
  { poolGet := Except.ok c2pool
    parseGVR := Except.error "no matches for kind"
    getScale := fun _ _ => Except.error "the server could not find the requested resource"
    updateScaleOk := true
    podsObsA := fun _ => TickObs.fieldAbsent
    podsObsB := fun _ => TickObs.fieldAbsent }

/-- C2 evaluation at the failing input: with GVR resolution failing, the code
does not return false; it goes on to query the scale subresource (one Get is
recorded) and, that read failing over the zero-valued resource, fails open
with true. -/
theorem c2_resolution_error_keeps_going :
    inferencePoolReady newActivatorConfig c2env 1 =
      { result := some RunResult.rtrue, scaleGets := ["my-workload"], updates := [] }
    ∧ (inferencePoolReady newActivatorConfig c2env 1).result ≠ some RunResult.rfalse := by
  constructor <;> decide

/-- Concrete pool whose optional grace-period annotation is present with
value 5. -/
def c3poolWith : InferencePool :=
  { name := "p"
    ns := "d"
    annots := [(ObjectApiVersionKey, "apps/v1"), (ObjectkindKey, "Deployment"),
               (ObjectNameKey, "wl"), (ScaleFromZeroGracePeriodKey, "5")] }

/-- Concrete pool without the optional grace-period annotation. -/
def c3poolWithout : InferencePool :=
  { name := "p"
    ns := "d"
    annots := [(ObjectApiVersionKey, "apps/v1"), (ObjectkindKey, "Deployment"),
               (ObjectNameKey, "wl")] }

/-- C3 evaluation at the failing inputs: with the annotation present and
parsing as 5, the effective grace period is the 60-second default converted
to nanoseconds (60000000000 poll iterations), not 5; with the annotation
absent it is Atoi of the empty string, 0, not the documented default 60. -/
theorem c3_grace_period_branches_swapped :
    scaleFromZeroGracePeriodInt c3poolWith
        newActivatorConfig.defaultScaleFromZeroGracePeriodNanos = 60000000000
    ∧ scaleFromZeroGracePeriodInt c3poolWith
        newActivatorConfig.defaultScaleFromZeroGracePeriodNanos ≠ 5
    ∧ scaleFromZeroGracePeriodInt c3poolWithout
        newActivatorConfig.defaultScaleFromZeroGracePeriodNanos = 0
    ∧ scaleFromZeroGracePeriodInt c3poolWithout
        newActivatorConfig.defaultScaleFromZeroGracePeriodNanos ≠ 60 := by
  refine ⟨by decide, by decide, by decide, by decide⟩

/-- C5: per-tick semantics of the readiness poll.  An absent readyReplicas
field re-polls with the grace counter unchanged; a present value strictly
below the desired count (both in int32 range) advances the counter by one
and re-polls while the counter stays within the grace period; as soon as
the advanced counter exceeds the grace period the loop returns false; a
present value equal to the desired count returns true. -/
theorem c5_readiness_poll_tick_semantics :
    (∀ (n g : Int) (obs : Nat → TickObs) (fuel i c : Nat),
        obs i = TickObs.fieldAbsent →
        podsReadyRun n g obs (fuel + 1) i c = podsReadyRun n g obs fuel (i + 1) c)
    ∧ (∀ (n g r : Int) (obs : Nat → TickObs) (fuel i c : Nat),
        obs i = TickObs.present r → 0 ≤ r → r < n → n < 2147483648 →
        ((c : Int) + 1) ≤ g →
        podsReadyRun n g obs (fuel + 1) i c = podsReadyRun n g obs fuel (i + 1) (c + 1))
    ∧ (∀ (n g r : Int) (obs : Nat → TickObs) (fuel i c : Nat),
        obs i = TickObs.present r → 0 ≤ r → r < n → n < 2147483648 →
        ((c : Int) + 1) > g →
        podsReadyRun n g obs (fuel + 1) i c = some LoopResult.retFalse)
    ∧ (∀ (n g r : Int) (obs : Nat → TickObs) (fuel i c : Nat),
        obs i = TickObs.present r → -2147483648 ≤ r → r < 2147483648 → r = n →
        podsReadyRun n g obs (fuel + 1) i c = some LoopResult.retTrue) := by
  refine ⟨?_, ?_, ?_, ?_⟩
  · intro n g obs fuel i c hobs
    simp [podsReadyRun, hobs, podsReadyStep]
  · intro n g r obs fuel i c hobs hr0 hrn hn hcg
    have ht : toInt32 r = r := toInt32_eq_self r (by omega) (by omega)
    have hne : ¬ n = toInt32 r := by rw [ht]; omega
    have hng : ¬ ((c : Int) + 1 > g) := by omega
    simp [podsReadyRun, hobs, podsReadyStep, hne, hng]
  · intro n g r obs fuel i c hobs hr0 hrn hn hcg
    have ht : toInt32 r = r := toInt32_eq_self r (by omega) (by omega)
    have hne : ¬ n = toInt32 r := by rw [ht]; omega
    simp [podsReadyRun, hobs, podsReadyStep, hne, hcg]
  · intro n g r obs fuel i c hobs hlo hhi hrn
    have ht : toInt32 r = r := toInt32_eq_self r hlo hhi
    have heq : n = toInt32 r := by rw [ht]; omega
    simp [podsReadyRun, hobs, podsReadyStep, heq]

/-- Witness for C5: each tick outcome exercised at concrete inputs. -/
theorem c5_witness :
    podsReadyRun 1 60 (fun _ => TickObs.fieldAbsent) 1 0 0
      = podsReadyRun 1 60 (fun _ => TickObs.fieldAbsent) 0 1 0
    ∧ podsReadyRun 1 60 (fun _ => TickObs.present 0) 1 0 0
      = podsReadyRun 1 60 (fun _ => TickObs.present 0) 0 1 1
    ∧ podsReadyRun 1 0 (fun _ => TickObs.present 0) 1 0 0 = some LoopResult.retFalse
    ∧ podsReadyRun 1 60 (fun _ => TickObs.present 1) 1 0 0 = some LoopResult.retTrue :=
  ⟨c5_readiness_poll_tick_semantics.1 1 60 (fun _ => TickObs.fieldAbsent) 0 0 0 rfl,
   c5_readiness_poll_tick_semantics.2.1 1 60 0 (fun _ => TickObs.present 0) 0 0 0 rfl
     (by decide) (by decide) (by decide) (by decide),
   c5_readiness_poll_tick_semantics.2.2.1 1 0 0 (fun _ => TickObs.present 0) 0 0 0 rfl
     (by decide) (by decide) (by decide) (by decide),
   c5_readiness_poll_tick_semantics.2.2.2 1 60 1 (fun _ => TickObs.present 1) 0 0 0 rfl
     (by decide) (by decide) (by decide)⟩

/-- Environment in which the pool is registered and valid, the scale read
succeeds with one desired replica, and the readiness-poll read of the
workload object fails on the first tick. -/
def c6env : Env :=
  { poolGet := Except.ok c1pool
    parseGVR := Except.ok { group := "apps", version := "v1", resource := "deployments" }
    getScale := fun _ _ => Except.ok { specReplicas := 1 }
    updateScaleOk := true
    podsObsA := fun _ => TickObs.getError
    podsObsB := fun _ => TickObs.fieldAbsent }

/-- Concrete request carrying a string model field. -/
def c6req : RequestContext :=
  { body := [("model", BodyVal.vstr "random")], incomingModelName := "", targetModelName := "" }

/-- C6 evaluation at the failing input: a request whose readiness poll hits
one failed read of the target workload object makes HandleRequest panic (the
code dereferences the nil object the failed read returned) instead of
returning an error value. -/
theorem c6_handle_request_can_panic :
    (handleRequest newActivatorConfig c6env c6req 1).map Prod.snd
      = some HandleOutcome.panicked := by
  decide

/-- C7 counterexample: a poll tick observing readyReplicas = 2 with desired
replicas 1 does not satisfy readiness — the step advances the grace counter
instead of returning true, and with the whole budget consumed the poll gives
up with false even though readyReplicas exceeds desired on every tick. -/
theorem c7_counterexample :
    podsReadyStep 1 60 0 (TickObs.present 2) ≠ StepResult.retTrue
    ∧ podsReadyRun 1 0 (fun _ => TickObs.present 2) 1 0 0 = some LoopResult.retFalse := by
  constructor <;> decide

/-- C7 amended: a poll tick on which readyReplicas is present satisfies
readiness exactly when it equals the desired count (both in int32 range);
a value strictly greater than desired is treated as not ready and advances
the grace counter like any other mismatch. -/
theorem c7_readiness_is_equality (n g r : Int) (c : Nat)
    (h3 : -2147483648 ≤ r) (h4 : r < 2147483648) :
    (podsReadyStep n g c (TickObs.present r) = StepResult.retTrue ↔ r = n)
    ∧ (r > n →
        podsReadyStep n g c (TickObs.present r) =
          if ((c : Int) + 1) > g then StepResult.retFalse else StepResult.again (c + 1)) := by
  have ht : toInt32 r = r := toInt32_eq_self r h3 h4
  constructor
  · by_cases hnr : n = r
    · simp [podsReadyStep, ht, hnr]
    · have hrn : ¬ r = n := fun h => hnr h.symm
      simp only [podsReadyStep, ht, if_neg hnr]
      constructor
      · intro h
        exfalso
        by_cases hg : ((c : Int) + 1) > g <;> simp [hg] at h
      · intro h
        exact absurd h hrn
  · intro hgt
    have hnr : ¬ n = toInt32 r := by rw [ht]; omega
    simp [podsReadyStep, hnr]

/-- Witness for the amended C7 at desired 1, observed 2: the tick is not
treated as ready and, the grace budget 0 being exhausted, the poll steps to
give-up. -/
theorem c7_witness :
    podsReadyStep 1 0 0 (TickObs.present 2) = StepResult.retFalse := by
  have h := (c7_readiness_is_equality 1 0 2 0 (by decide) (by decide)).2 (by decide)
  simpa using h

/-- Watcher environment that is idle from the first tick and whose scale
read always fails. -/
def c8failEnv : WatcherEnv :=
  { sinceLastRequest := fun _ => 30000000000
    getScale := fun _ => Except.error "connection refused"
    updateOk := fun _ => true }

/-- C8: the idleness watcher ticks on the fixed 30-second period; on an
idle tick (time since the last request above the scale-down delay) with a
successful scale read it issues exactly one UpdateScale writing 0, after
which a successful update terminates the watcher with no further mutation
and a failed update leaves it ticking; a non-idle tick just re-ticks.  The
second conjunct evaluates the failing input: an idle tick whose scale read
fails panics on the nil scale object instead of updating or re-ticking. -/
theorem c8_idleness_watcher_semantics :
    watcherTickSeconds = 30
    ∧ monitorInferencePoolIdleness newActivatorConfig c8failEnv 1 0 []
        = { result := some WatcherResult.panicked, updates := [] }
    ∧ (∀ (cfg : ActivatorConfig) (env : WatcherEnv) (fuel i : Nat) (acc : List Int)
          (s : ScaleObj),
        env.sinceLastRequest i > cfg.defaultScaleDownDelayNanos →
        env.getScale i = Except.ok s →
        env.updateOk i = true →
        monitorInferencePoolIdleness cfg env (fuel + 1) i acc
          = { result := some WatcherResult.terminated, updates := acc ++ [0] })
    ∧ (∀ (cfg : ActivatorConfig) (env : WatcherEnv) (fuel i : Nat) (acc : List Int)
          (s : ScaleObj),
        env.sinceLastRequest i > cfg.defaultScaleDownDelayNanos →
        env.getScale i = Except.ok s →
        env.updateOk i = false →
        monitorInferencePoolIdleness cfg env (fuel + 1) i acc
          = monitorInferencePoolIdleness cfg env fuel (i + 1) (acc ++ [0]))
    ∧ (∀ (cfg : ActivatorConfig) (env : WatcherEnv) (fuel i : Nat) (acc : List Int),
        ¬ (env.sinceLastRequest i > cfg.defaultScaleDownDelayNanos) →
        monitorInferencePoolIdleness cfg env (fuel + 1) i acc
          = monitorInferencePoolIdleness cfg env fuel (i + 1) acc) := by
  refine ⟨rfl, by decide, ?_, ?_, ?_⟩
  · intro cfg env fuel i acc s hidle hget hupd
    simp [monitorInferencePoolIdleness, hidle, hget, hupd, scaleInferencePool]
  · intro cfg env fuel i acc s hidle hget hupd
    simp [monitorInferencePoolIdleness, hidle, hget, hupd, scaleInferencePool]
  · intro cfg env fuel i acc hidle
    simp [monitorInferencePoolIdleness, hidle]

/-- Watcher environment that is busy on tick 0, idle from tick 1 on, with
successful reads and updates. -/
def c8okEnv : WatcherEnv :=
  { sinceLastRequest := fun i => if i = 0 then 0 else 30000000000
    getScale := fun _ => Except.ok { specReplicas := 1 }
    updateOk := fun _ => true }

/-- Watcher environment that is always idle but whose updates are refused. -/
def c8failUpdEnv : WatcherEnv :=
  { sinceLastRequest := fun _ => 30000000000
    getScale := fun _ => Except.ok { specReplicas := 1 }
    updateOk := fun _ => false }

/-- Witness for C8 at concrete watcher environments: a busy tick re-ticks,
an idle tick with a working cluster scales to zero and terminates, and an
idle tick whose update is refused leaves the watcher ticking. -/
theorem c8_witness :
    monitorInferencePoolIdleness newActivatorConfig c8okEnv 1 0 []
      = monitorInferencePoolIdleness newActivatorConfig c8okEnv 0 1 []
    ∧ monitorInferencePoolIdleness newActivatorConfig c8okEnv 1 1 []
      = { result := some WatcherResult.terminated, updates := [0] }
    ∧ monitorInferencePoolIdleness newActivatorConfig c8failUpdEnv 1 0 []
      = monitorInferencePoolIdleness newActivatorConfig c8failUpdEnv 0 1 [0] :=
  ⟨c8_idleness_watcher_semantics.2.2.2.2 newActivatorConfig c8okEnv 0 0 [] (by decide),
   c8_idleness_watcher_semantics.2.2.1 newActivatorConfig c8okEnv 0 1 []
     { specReplicas := 1 } (by decide) rfl rfl,
   c8_idleness_watcher_semantics.2.2.2.1 newActivatorConfig c8failUpdEnv 0 0 []
     { specReplicas := 1 } (by decide) rfl rfl⟩

/-- C9: whenever the request body carries a string model field, the context
HandleRequest returns — whatever the verdict, ServiceUnavailable included —
has its body model key overwritten with the resolved target model name,
which defaults to the incoming model name when the target was empty. -/
theorem c9_model_resolved_before_gate (cfg : ActivatorConfig) (env : Env)
    (fuel : Nat) (reqCtx : RequestContext) (m : String)
    (rcOut : RequestContext) (out : HandleOutcome)
    (hmodel : lookupBody reqCtx.body "model" = some (BodyVal.vstr m))
    (hrun : handleRequest cfg env reqCtx fuel = some (rcOut, out)) :
    lookupBody rcOut.body "model"
      = some (BodyVal.vstr (if reqCtx.targetModelName = "" then m
                            else reqCtx.targetModelName)) := by
  unfold handleRequest at hrun
  rw [hmodel] at hrun
  dsimp only at hrun
  split at hrun
  · exact absurd hrun (by simp)
  all_goals
    simp only [Option.some.injEq, Prod.mk.injEq] at hrun
    obtain ⟨hrc, _⟩ := hrun
    rw [← hrc]
    by_cases ht : reqCtx.targetModelName = "" <;>
      simp [ht, lookupBody_setBody]

/-- Environment with no registered pool, so the readiness gate reports
unavailable. -/
def c9env : Env :=
  { poolGet := Except.error "inference pool not initialized"
    parseGVR := Except.error "unset"
    getScale := fun _ _ => Except.error "unset"
    updateScaleOk := true
    podsObsA := fun _ => TickObs.fieldAbsent
    podsObsB := fun _ => TickObs.fieldAbsent }

/-- Concrete request whose target model is empty. -/
def c9req : RequestContext :=
  { body := [("model", BodyVal.vstr "mm")], incomingModelName := "", targetModelName := "" }

/-- The context returned for c9req in c9env. -/
def c9out : RequestContext :=
  { body := [("model", BodyVal.vstr "mm")], incomingModelName := "mm", targetModelName := "mm" }

/-- Witness for C9: a concrete rejected request still carries the resolved
model value in its returned body. -/
theorem c9_witness :
    handleRequest newActivatorConfig c9env c9req 0
      = some (c9out, HandleOutcome.serviceUnavailable)
    ∧ lookupBody c9out.body "model" = some (BodyVal.vstr "mm") := by
  refine ⟨by decide, ?_⟩
  have h := c9_model_resolved_before_gate newActivatorConfig c9env 0 c9req "mm" c9out
    HandleOutcome.serviceUnavailable (by decide) (by decide)
  simpa using h

/-- C10: the required-annotation validation checks key presence only — a
pool whose three required keys are present passes it whatever the values,
empty strings included — and the (possibly empty) target-name value is then
the one name passed verbatim to the scale-subresource lookup. -/
theorem c10_presence_only_validation (cfg : ActivatorConfig) (env : Env)
    (fuel : Nat) (pool : InferencePool) (nameVal : String)
    (hpool : env.poolGet = Except.ok pool)
    (h1 : (lookupAnn pool.annots ObjectApiVersionKey).isSome = true)
    (h2 : (lookupAnn pool.annots ObjectkindKey).isSome = true)
    (h3 : lookupAnn pool.annots ObjectNameKey = some nameVal) :
    verifyPoolObjectAnnotations pool = true
    ∧ (inferencePoolReady cfg env fuel).scaleGets = [nameVal] := by
  have hv := verify_eq_true_of_present pool h1 h2 (by simp [h3])
  refine ⟨hv, ?_⟩
  have hname : goMapGet pool ObjectNameKey = nameVal := by simp [goMapGet, h3]
  unfold inferencePoolReady
  rw [hpool]
  simp only [hv, hname, Bool.true_eq_false, if_false]
  repeat' split
  all_goals rfl

/-- Concrete pool whose required annotations are present with empty values. -/
def c10pool : InferencePool :=
  { name := "p"
    ns := "d"
    annots := [(ObjectApiVersionKey, ""), (ObjectkindKey, ""), (ObjectNameKey, "")] }

/-- Environment registering the empty-valued pool. -/
def c10env : Env :=
  { poolGet := Except.ok c10pool
    parseGVR := Except.error "cannot parse empty apiVersion"
    getScale := fun _ _ => Except.error "resource name may not be empty"
    updateScaleOk := true
    podsObsA := fun _ => TickObs.fieldAbsent
    podsObsB := fun _ => TickObs.fieldAbsent }

/-- Witness for C10: the empty-valued pool passes validation and the empty
target-name value is the one passed to the scale lookup. -/
theorem c10_witness :
    verifyPoolObjectAnnotations c10pool = true
    ∧ (inferencePoolReady newActivatorConfig c10env 1).scaleGets = [""] :=
  c10_presence_only_validation newActivatorConfig c10env 1 c10pool "" rfl
    (by decide) (by decide) (by decide)
